import Mathlib

/-!
Verification of the Korean acrostic-poem generator (`src/app.py`).

Strings are embedded as `List Char` (Python strings are sequences of code
points; Lean `Char` is a Unicode scalar value, matching Python's `len` and
indexing for all text appearing here). Korean text literals are written as
Lean string literals and converted with `String.data`.

The Gemini API call is the single effectful boundary; its observable
behaviours (a response carrying `response.text`, or a raised exception with
message `str(e)`) are reified as the `ApiBehavior` type, so
`generate_korean_poetry` becomes a pure function of the word and the API
behaviour, exactly mirroring the `try`/`except` structure of the source.
-/

/-- Python `str.isspace` / the whitespace set stripped by `str.strip()`:
U+0009..U+000D, U+001C..U+0020, U+0085, U+00A0, U+1680, U+2000..U+200A,
U+2028, U+2029, U+202F, U+205F, U+3000. -/
def pyIsSpace (c : Char) : Bool :=
  let n := c.toNat
  (9 ≤ n && n ≤ 13) || (28 ≤ n && n ≤ 32) || n == 0x85 || n == 0xA0 ||
  n == 0x1680 || (0x2000 ≤ n && n ≤ 0x200A) || n == 0x2028 || n == 0x2029 ||
  n == 0x202F || n == 0x205F || n == 0x3000

/-- Python `text.strip()`: remove leading and trailing whitespace. -/
def pyStrip (l : List Char) : List Char :=
  ((l.dropWhile pyIsSpace).reverse.dropWhile pyIsSpace).reverse

/-- Python `pat in s` restricted to a prefix position: `s.startswith(pat)`. -/
def pyStartsWith (pat l : List Char) : Bool :=
  l.take pat.length == pat

/-- Python substring membership `pat in l`. -/
def containsSub (pat : List Char) : List Char → Bool
  | [] => pyStartsWith pat []
  | a :: t => pyStartsWith pat (a :: t) || containsSub pat t

/-- Python `s.split(sep)` for a single-character separator: does not collapse
adjacent separators, and `"".split(sep) == [""]`. -/
def pySplit (sep : Char) : List Char → List (List Char)
  | [] => [[]]
  | a :: t =>
    match pySplit sep t with
    | [] => [[]]
    | h :: r => if a = sep then [] :: h :: r else (a :: h) :: r

/-- Python `s.lower()`. Only ASCII letters matter here: the two patterns the
code scans for (`"ascii"`, `"codec"`) are ASCII, so the ASCII case fold
`Char.toLower` is the faithful image of the check. -/
def pyLower (l : List Char) : List Char := l.map Char.toLower

/-- Membership of a code point in the Hangul syllable block, the test
applied per character at `src/app.py:73`: `'가' <= char <= '힣'`. -/
def isHangulSyllable (c : Char) : Bool :=
  decide (0xAC00 ≤ c.toNat ∧ c.toNat ≤ 0xD7A3)

/-- `validate_korean_input` (src/app.py:59-74): `False` when the string is
empty or strips to empty, else `True` iff the comprehension
`[char for char in text if '가' <= char <= '힣']` is non-empty. -/
def validate_korean_input (text : List Char) : Bool :=
  if text.isEmpty || (pyStrip text).isEmpty then false
  else decide (0 < (text.filter isHangulSyllable).length)

/-- Template text of the prompt before the first interpolation of
`clean_word` (src/app.py:32-34). -/
def promptPart1 : List Char :=
  ("당신은 한국어 행시 전문가입니다. 주어진 단어의 각 글자로 시작하는 행시를 만들어주세요.\n\n" ++
   "규칙:\n" ++ "1. 단어 \x27").data

/-- Template text between the two interpolations of `clean_word`
(src/app.py:34-39). -/
def promptPart2 : List Char :=
  ("\x27의 각 글자로 시작하는 행시를 만드세요\n" ++
   "2. 각 행은 해당 글자를 대괄호로 감싸서 시작해야 합니다 (예: [바], [다])\n" ++
   "3. 각 행은 의미있고 아름다운 문장이어야 합니다\n" ++
   "4. 전체적으로 통일감 있는 주제나 이야기가 있으면 좋습니다\n" ++
   "5. 각 행은 10-20자 정도의 적당한 길이로 만드세요\n\n" ++
   "단어: ").data

/-- Template text after the second interpolation of `clean_word`
(src/app.py:39-40). -/
def promptPart3 : List Char := "\n\n행시를 만들어주세요:".data

/-- The prompt constructed at src/app.py:29-40: the fixed template with
`clean_word = word.strip()` interpolated twice. -/
def buildPrompt (word : List Char) : List Char :=
  promptPart1 ++ pyStrip word ++ promptPart2 ++ pyStrip word ++ promptPart3

/-- `"행시 생성에 실패했습니다. 다시 시도해주세요."` (src/app.py:51). -/
def msgGenFail : List Char := "행시 생성에 실패했습니다. 다시 시도해주세요.".data

/-- `"한글 처리 오류가 발생했습니다. 잠시 후 다시 시도해주세요."` (src/app.py:56). -/
def msgEncodingErr : List Char :=
  "한글 처리 오류가 발생했습니다. 잠시 후 다시 시도해주세요.".data

/-- The fixed part of `f"API 오류가 발생했습니다: {error_msg}"` (src/app.py:57). -/
def msgApiErrPfx : List Char := "API 오류가 발생했습니다: ".data

/-- `"단어를 입력해주세요."` (src/app.py:138). -/
def msgEmptyInput : List Char := "단어를 입력해주세요.".data

/-- `"한국어 단어를 입력해주세요."` (src/app.py:140). -/
def msgNotKorean : List Char := "한국어 단어를 입력해주세요.".data

/-- `"10자 이하의 단어를 입력해주세요."` (src/app.py:142). -/
def msgTooLong : List Char := "10자 이하의 단어를 입력해주세요.".data

/-- `"2자 이상의 단어를 입력해주세요."` (src/app.py:144). -/
def msgTooShort : List Char := "2자 이상의 단어를 입력해주세요.".data

/-- Prefix checked at src/app.py:166: `poetry.startswith("행시 생성에 실패")`. -/
def genFailPfx : List Char := "행시 생성에 실패".data

/-- Prefix checked at src/app.py:166: `poetry.startswith("API 오류")`. -/
def apiErrPfx : List Char := "API 오류".data

/-- Observable behaviour of the `client.models.generate_content` call
(src/app.py:43-46): a response whose `.text` is the given string (`[]`
models both the empty string and an absent/`None` text, Python truthiness
treating them alike), or a raised exception with the given `str(e)`. -/
inductive ApiBehavior where
  | response (text : List Char)
  | raises (msg : List Char)
deriving DecidableEq

/-- `generate_korean_poetry` (src/app.py:16-57): return the stripped
response text when it is truthy; the fixed failure message when it is not;
on exception, the localized encoding message when the lowered `str(e)`
contains `"ascii"` or `"codec"`, else the generic API-error message with
`str(e)` appended. The prompt it sends is `buildPrompt word`. -/
def generate_korean_poetry (word : List Char) (api : ApiBehavior) : List Char :=
  match api with
  | .response t => if !t.isEmpty then pyStrip t else msgGenFail
  | .raises e =>
    if containsSub "ascii".data (pyLower e) || containsSub "codec".data (pyLower e)
    then msgEncodingErr
    else msgApiErrPfx ++ e

/-- The rendering of a generation result (src/app.py:166-181): either an
error banner via `st.error`, or the stripped non-blank poem lines rendered
via `st.markdown` followed by the `st.success` banner. -/
inductive Display where
  | errorBanner (msg : List Char)
  | successPoem (ls : List (List Char))
deriving DecidableEq

/-- The poem lines actually rendered (src/app.py:168-171): split on `'\n'`,
keep each line whose strip is truthy, rendered stripped. -/
def renderedLines (poetry : List Char) : List (List Char) :=
  (pySplit '\n' poetry).filterMap
    (fun l => if (pyStrip l).isEmpty then none else some (pyStrip l))

/-- The display step (src/app.py:166-181): poem plus success banner when
`poetry` is truthy and starts with neither failure prefix, else an error
banner showing `poetry` itself. -/
def display_result (poetry : List Char) : Display :=
  if !poetry.isEmpty
     && !(pyStartsWith genFailPfx poetry)
     && !(pyStartsWith apiErrPfx poetry)
  then .successPoem (renderedLines poetry)
  else .errorBanner poetry

/-- Outcome of one pass through the submit branch (src/app.py:136-181):
either rejected with a blocking `st.error` message and no API call, or the
generation call was performed with `clean_word` and its result displayed. -/
inductive SubmitOutcome where
  | rejected (msg : List Char)
  | generated (word : List Char) (shown : Display)
deriving DecidableEq

/-- The submit flow (src/app.py:136-181): the four validation gates in
source order, then `generate_korean_poetry(clean_word, client)` followed by
the display step. -/
def submit_flow (user_input : List Char) (api : ApiBehavior) : SubmitOutcome :=
  if user_input.isEmpty || (pyStrip user_input).isEmpty then
    .rejected msgEmptyInput
  else if !(validate_korean_input user_input) then
    .rejected msgNotKorean
  else if 10 < (pyStrip user_input).length then
    .rejected msgTooLong
  else if (pyStrip user_input).length < 2 then
    .rejected msgTooShort
  else
    .generated (pyStrip user_input)
      (display_result (generate_korean_poetry (pyStrip user_input) api))

/-! ### Lemmas about the string primitives -/

/-- A character failing `p` is never removed by `dropWhile p`. -/
theorem mem_dropWhile_of_not {p : Char → Bool} {c : Char} :
    ∀ {l : List Char}, c ∈ l → p c = false → c ∈ l.dropWhile p := by
  intro l
  induction l with
  | nil => intro h _; cases h
  | cons a t ih =>
    intro hc hpc
    cases ha : p a with
    | true =>
      rw [List.dropWhile_cons_of_pos ha]
      cases List.mem_cons.mp hc with
      | inl h => subst h; rw [ha] at hpc; cases hpc
      | inr h => exact ih h hpc
    | false =>
      rw [List.dropWhile_cons_of_neg (by simp [ha])]
      exact hc

/-- Stripping removes only whitespace: any non-whitespace character of `l`
is still in `pyStrip l`. -/
theorem mem_pyStrip_of_not_space {c : Char} {l : List Char}
    (hc : c ∈ l) (hns : pyIsSpace c = false) : c ∈ pyStrip l := by
  unfold pyStrip
  rw [List.mem_reverse]
  refine mem_dropWhile_of_not ?_ hns
  rw [List.mem_reverse]
  exact mem_dropWhile_of_not hc hns

/-- Hangul syllables are not whitespace. -/
theorem isHangul_not_space {c : Char} (h : isHangulSyllable c = true) :
    pyIsSpace c = false := by
  unfold isHangulSyllable at h
  have hn := of_decide_eq_true h
  simp only [pyIsSpace, Bool.or_eq_false_iff, Bool.and_eq_false_iff,
    decide_eq_false_iff_not, Nat.not_le, beq_eq_false_iff_ne, ne_eq]
  omega

/-- The head of `dropWhile p` fails `p`. -/
theorem dropWhile_head_false {p : Char → Bool} :
    ∀ {l : List Char} {a : Char} {t : List Char},
      l.dropWhile p = a :: t → p a = false := by
  intro l
  induction l with
  | nil => intro a t h; cases h
  | cons x xs ih =>
    intro a t h
    rw [List.dropWhile_cons] at h
    split at h
    · exact ih h
    · next hx =>
      injection h with h1 _
      subst h1
      simpa using hx

/-- `dropWhile p` is the identity on a list whose head fails `p`. -/
theorem dropWhile_cons_false {p : Char → Bool} {a : Char} {t : List Char}
    (h : p a = false) : (a :: t).dropWhile p = a :: t :=
  List.dropWhile_cons_of_neg (by simp [h])

/-- Stripping is idempotent: `s.strip().strip() == s.strip()`. -/
theorem pyStrip_idem (l : List Char) : pyStrip (pyStrip l) = pyStrip l := by
  have key : ∀ m : List Char, (∀ x t, m = x :: t → pyIsSpace x = false) →
      (∀ x t, m.reverse = x :: t → pyIsSpace x = false) → pyStrip m = m := by
    intro m hfront hback
    unfold pyStrip
    have h1 : m.dropWhile pyIsSpace = m := by
      cases hm : m with
      | nil => rfl
      | cons x t => exact dropWhile_cons_false (hfront x t hm)
    rw [h1]
    have h2 : m.reverse.dropWhile pyIsSpace = m.reverse := by
      cases hm : m.reverse with
      | nil => rfl
      | cons x t => exact dropWhile_cons_false (hback x t hm)
    rw [h2, List.reverse_reverse]
  apply key
  · intro x t hxt
    unfold pyStrip at hxt
    have hu : (l.dropWhile pyIsSpace).reverse.takeWhile pyIsSpace ++
        (l.dropWhile pyIsSpace).reverse.dropWhile pyIsSpace =
        (l.dropWhile pyIsSpace).reverse := by simp
    have hA : l.dropWhile pyIsSpace =
        ((l.dropWhile pyIsSpace).reverse.dropWhile pyIsSpace).reverse ++
        ((l.dropWhile pyIsSpace).reverse.takeWhile pyIsSpace).reverse := by
      have h := congrArg List.reverse hu
      rw [List.reverse_append, List.reverse_reverse] at h
      exact h.symm
    rw [hxt] at hA
    exact dropWhile_head_false (by simpa using hA)
  · intro x t hxt
    unfold pyStrip at hxt
    rw [List.reverse_reverse] at hxt
    exact dropWhile_head_false hxt

/-- The validator is `true` exactly when some character is a Hangul
syllable. -/
theorem validate_iff_exists_hangul (text : List Char) :
    validate_korean_input text = true ↔
      ∃ c ∈ text, isHangulSyllable c = true := by
  unfold validate_korean_input
  constructor
  · intro h
    split at h
    · cases h
    · have h0 : 0 < (text.filter isHangulSyllable).length := of_decide_eq_true h
      obtain ⟨c, hc⟩ :=
        List.exists_mem_of_ne_nil _ (List.length_pos.mp h0)
      have hm := List.mem_filter.mp hc
      exact ⟨c, hm.1, hm.2⟩
  · rintro ⟨c, hc, hh⟩
    have hns := isHangul_not_space hh
    have hmem : c ∈ pyStrip text := mem_pyStrip_of_not_space hc hns
    have h1 : text.isEmpty = false := by
      cases text with
      | nil => cases hc
      | cons a t => rfl
    have h2 : (pyStrip text).isEmpty = false := by
      cases hps : pyStrip text with
      | nil => rw [hps] at hmem; cases hmem
      | cons a t => rfl
    rw [h1, h2]
    simp only [Bool.or_self, Bool.false_or, if_false]
    refine decide_eq_true ?_
    exact List.length_pos.mpr
      (List.ne_nil_of_mem (List.mem_filter.mpr ⟨hc, hh⟩))

/-! ### Claim theorems -/

/-- C1: `validate_korean_input` returns `true` for a string iff the string
contains at least one character whose code point lies in U+AC00..U+D7A3
inclusive: every string with zero such characters (empty, whitespace-only,
pure ASCII, punctuation-only) yields `false`, and every string containing
at least one yields `true` regardless of any other characters present. -/
theorem c1_validator_true_iff_hangul (text : List Char) :
    validate_korean_input text = true ↔
      ∃ c ∈ text, 0xAC00 ≤ c.toNat ∧ c.toNat ≤ 0xD7A3 := by
  rw [validate_iff_exists_hangul]
  simp only [isHangulSyllable, decide_eq_true_eq]

/-- C7: the prompt builder is a pure deterministic function of the word —
equal words give character-for-character identical prompts — and the
trimmed word occurs verbatim at (at least) two disjoint positions in the
output, separated by the non-empty middle section of the template (the
numbered-rules occurrence and the labeled word-field occurrence). -/
theorem c7_prompt_deterministic_and_word_twice (w w' : List Char) :
    (w = w' → buildPrompt w = buildPrompt w') ∧
      ∃ a b c, b ≠ [] ∧
        buildPrompt w = a ++ pyStrip w ++ b ++ pyStrip w ++ c := by
  refine ⟨fun h => by rw [h],
    promptPart1, promptPart2, promptPart3, ?_, rfl⟩
  decide

/-- C10: the constructed prompt is invariant under leading and trailing
whitespace of the input word: the prompt built from `w` equals the prompt
built from the trimmed `w`, because the word is stripped before both
interpolations into the template. -/
theorem c10_prompt_strip_invariant (w : List Char) :
    buildPrompt w = buildPrompt (pyStrip w) := by
  unfold buildPrompt
  rw [pyStrip_idem]

/-- C8: `generate_korean_poetry` is total over every API behaviour — a
truthy response, an empty response, or any raised exception — and every
outcome, success or failure, is an ordinary returned string: the stripped
response text, the fixed generation-failure message, the localized
encoding-error message, or the generic API-error message with the raw
exception message appended. No exception propagates to the caller. -/
theorem c8_generate_total_coverage (w : List Char) (api : ApiBehavior) :
    (∃ t, api = .response t ∧ t ≠ [] ∧
        generate_korean_poetry w api = pyStrip t) ∨
      generate_korean_poetry w api = msgGenFail ∨
      generate_korean_poetry w api = msgEncodingErr ∨
      (∃ m, api = .raises m ∧
        generate_korean_poetry w api = msgApiErrPfx ++ m) := by
  cases api with
  | response t =>
    cases ht : t.isEmpty with
    | true =>
      right; left
      simp [generate_korean_poetry, ht]
    | false =>
      left
      exact ⟨t, rfl, by simpa using ht, by simp [generate_korean_poetry, ht]⟩
  | raises m =>
    cases hc : (containsSub "ascii".data (pyLower m) ||
        containsSub "codec".data (pyLower m)) with
    | true =>
      right; right; left
      simp [generate_korean_poetry, hc]
    | false =>
      right; right; right
      exact ⟨m, rfl, by simp [generate_korean_poetry, hc]⟩

/-- C2: the display step routes a generation result by string prefix — a
result starting with either failure prefix ("행시 생성에 실패" or
"API 오류") is rendered as an error banner; every other non-empty result is
split on line breaks, its non-blank lines rendered (stripped) as poem
lines with a success banner; for the stubbed two-line result for the word
"바다", exactly the two non-blank poem lines are rendered with the success
banner. -/
theorem c2_display_routing (p : List Char) :
    ((pyStartsWith genFailPfx p = true ∨ pyStartsWith apiErrPfx p = true) →
      display_result p = .errorBanner p) ∧
    (p ≠ [] → pyStartsWith genFailPfx p = false →
      pyStartsWith apiErrPfx p = false →
      display_result p = .successPoem (renderedLines p)) ∧
    display_result "[바]람이 분다\n[다]정히 웃는다".data =
      .successPoem ["[바]람이 분다".data, "[다]정히 웃는다".data] := by
  refine ⟨?_, ?_, by decide⟩
  · rintro (h | h) <;> simp [display_result, h]
  · intro h1 h2 h3
    simp [display_result, h1, h2, h3]

/-- Witness for C2: the fixed generation-failure message is routed to the
error banner, and a plain non-empty text is routed to the poem lines with
the success banner. -/
theorem c2_display_routing_witness :
    display_result msgGenFail = .errorBanner msgGenFail ∧
      display_result "한 줄".data = .successPoem (renderedLines "한 줄".data) :=
  ⟨(c2_display_routing msgGenFail).1 (Or.inl (by decide)),
   (c2_display_routing "한 줄".data).2.1 (by decide) (by decide) (by decide)⟩

/-- C3: when the generation call raises an exception whose lowered message
contains `"ascii"` or `"codec"`, the result is the localized
encoding-error message and not the generic API-error message; for every
other exception the result is the generic message with the raw exception
message appended. -/
theorem c3_exception_message_mapping (w m : List Char) :
    ((containsSub "ascii".data (pyLower m) = true ∨
        containsSub "codec".data (pyLower m) = true) →
      generate_korean_poetry w (.raises m) = msgEncodingErr ∧
        generate_korean_poetry w (.raises m) ≠ msgApiErrPfx ++ m) ∧
    (containsSub "ascii".data (pyLower m) = false →
      containsSub "codec".data (pyLower m) = false →
      generate_korean_poetry w (.raises m) = msgApiErrPfx ++ m) := by
  constructor
  · intro h
    have hcond : (containsSub "ascii".data (pyLower m) ||
        containsSub "codec".data (pyLower m)) = true := by
      rcases h with h | h <;> simp [h]
    have hgen : generate_korean_poetry w (.raises m) = msgEncodingErr := by
      simp [generate_korean_poetry, hcond]
    refine ⟨hgen, ?_⟩
    rw [hgen]
    intro heq
    have h0 := congrArg List.head? heq
    rw [show msgApiErrPfx = 'A' :: "PI 오류가 발생했습니다: ".data from rfl,
      List.cons_append, List.head?_cons,
      show msgEncodingErr.head? = some '한' from rfl] at h0
    exact absurd (Option.some.inj h0) (by decide)
  · intro h1 h2
    simp [generate_korean_poetry, h1, h2]

/-- Witness for C3: a concrete exception message containing "codec" maps to
the encoding-error message, and a concrete message containing neither
substring maps to the generic API-error message. -/
theorem c3_exception_message_mapping_witness :
    (generate_korean_poetry "바다".data
        (.raises "UnicodeDecodeError: CODEC failure".data) = msgEncodingErr ∧
      generate_korean_poetry "바다".data
        (.raises "UnicodeDecodeError: CODEC failure".data) ≠
        msgApiErrPfx ++ "UnicodeDecodeError: CODEC failure".data) ∧
      generate_korean_poetry "바다".data (.raises "quota exceeded".data) =
        msgApiErrPfx ++ "quota exceeded".data :=
  ⟨(c3_exception_message_mapping "바다".data
      "UnicodeDecodeError: CODEC failure".data).1 (Or.inr (by decide)),
   (c3_exception_message_mapping "바다".data "quota exceeded".data).2
      (by decide) (by decide)⟩

/-- C4: a truthy response text is returned with leading and trailing
whitespace stripped; an empty (or absent) response text yields exactly the
fixed generation-failure message, and the display step routes that message
to the error banner rather than the success banner. -/
theorem c4_empty_response_policy (w t : List Char) :
    (t ≠ [] → generate_korean_poetry w (.response t) = pyStrip t) ∧
      generate_korean_poetry w (.response []) = msgGenFail ∧
      display_result msgGenFail = .errorBanner msgGenFail := by
  refine ⟨fun ht => ?_, rfl, by decide⟩
  simp [generate_korean_poetry, ht]

/-- Witness for C4: a concrete non-empty response text is returned
stripped. -/
theorem c4_empty_response_policy_witness :
    generate_korean_poetry "바다".data (.response "  시 한 줄  ".data) =
      pyStrip "  시 한 줄  ".data :=
  (c4_empty_response_policy "바다".data "  시 한 줄  ".data).1 (by decide)

/-- C5: the generation call is made only with a validated word — whenever
the submit flow reaches the API call with word `w`, that `w` is the
trimmed input, its length lies between 2 and 10 inclusive, and it contains
at least one character in the Hangul syllable range U+AC00..U+D7A3. -/
theorem c5_generation_only_validated (input : List Char) (api : ApiBehavior)
    (w : List Char) (d : Display)
    (h : submit_flow input api = .generated w d) :
    w = pyStrip input ∧ 2 ≤ w.length ∧ w.length ≤ 10 ∧
      ∃ c ∈ w, 0xAC00 ≤ c.toNat ∧ c.toNat ≤ 0xD7A3 := by
  unfold submit_flow at h
  split_ifs at h with h1 h2 h3 h4
  injection h with hw hd
  subst hw
  have hv : validate_korean_input input = true := by
    simpa using h2
  refine ⟨rfl, by omega, by omega, ?_⟩
  obtain ⟨c, hc, hh⟩ := (validate_iff_exists_hangul input).mp hv
  refine ⟨c, mem_pyStrip_of_not_space hc (isHangul_not_space hh), ?_⟩
  unfold isHangulSyllable at hh
  exact of_decide_eq_true hh

/-- Witness for C5: the concrete submission "바다" reaches the API call and
satisfies the validated-word invariant. -/
theorem c5_generation_only_validated_witness :
    "바다".data = pyStrip "바다".data ∧ 2 ≤ "바다".data.length ∧
      "바다".data.length ≤ 10 ∧
      ∃ c ∈ "바다".data, 0xAC00 ≤ c.toNat ∧ c.toNat ≤ 0xD7A3 :=
  c5_generation_only_validated "바다".data (.response "시".data) "바다".data
    (display_result (generate_korean_poetry "바다".data (.response "시".data)))
    (by decide)

/-- C6: a Hangul-containing submission whose trimmed length is 1 is
rejected with the "2자 이상" message and the generation call is not made;
one whose trimmed length is 11 or more is rejected with the "10자 이하"
message and the generation call is not made. -/
theorem c6_length_gate_warnings (input : List Char) (api : ApiBehavior)
    (hv : validate_korean_input input = true) :
    ((pyStrip input).length = 1 →
      submit_flow input api = .rejected msgTooShort ∧
        ∀ w d, submit_flow input api ≠ .generated w d) ∧
    (11 ≤ (pyStrip input).length →
      submit_flow input api = .rejected msgTooLong ∧
        ∀ w d, submit_flow input api ≠ .generated w d) := by
  have hcond : (input.isEmpty || (pyStrip input).isEmpty) = false := by
    cases hc : (input.isEmpty || (pyStrip input).isEmpty) with
    | false => rfl
    | true => simp [validate_korean_input, hc] at hv
  constructor
  · intro hlen
    have hflow : submit_flow input api = .rejected msgTooShort := by
      unfold submit_flow
      simp [hcond, hv, hlen]
    exact ⟨hflow, fun w d => by simp [hflow]⟩
  · intro hlen
    have hflow : submit_flow input api = .rejected msgTooLong := by
      unfold submit_flow
      simp [hcond, hv]
      intro hx
      omega
    exact ⟨hflow, fun w d => by simp [hflow]⟩

/-- Witness for C6: the length-1 word "바" is rejected with the "2자 이상"
message, and an 11-syllable Hangul word is rejected with the "10자 이하"
message. -/
theorem c6_length_gate_warnings_witness :
    submit_flow "바".data (.response []) = .rejected msgTooShort ∧
      submit_flow "바다바다바다바다바다바".data (.response []) =
        .rejected msgTooLong :=
  ⟨((c6_length_gate_warnings "바".data (.response []) (by decide)).1
      (by decide)).1,
   ((c6_length_gate_warnings "바다바다바다바다바다바".data (.response [])
      (by decide)).2 (by decide)).1⟩

/-- C9: the encoding-error message escapes the display's error routing — it
begins with neither failure prefix checked by the display step, so after an
exception whose lowered message contains "ascii" or "codec" the display
step renders the encoding-error message as an emphasized poem line with the
success banner instead of an error banner. -/
theorem c9_encoding_message_escapes_error_routing (w m : List Char)
    (h : containsSub "ascii".data (pyLower m) = true ∨
      containsSub "codec".data (pyLower m) = true) :
    pyStartsWith genFailPfx msgEncodingErr = false ∧
      pyStartsWith apiErrPfx msgEncodingErr = false ∧
      display_result (generate_korean_poetry w (.raises m)) =
        .successPoem [msgEncodingErr] := by
  have hcond : (containsSub "ascii".data (pyLower m) ||
      containsSub "codec".data (pyLower m)) = true := by
    rcases h with h | h <;> simp [h]
  have hgen : generate_korean_poetry w (.raises m) = msgEncodingErr := by
    simp [generate_korean_poetry, hcond]
  refine ⟨by decide, by decide, ?_⟩
  rw [hgen]
  decide

/-- Witness for C9: a concrete "ascii"-bearing exception message ends up
rendered as a poem line with the success banner. -/
theorem c9_encoding_message_escapes_error_routing_witness :
    pyStartsWith genFailPfx msgEncodingErr = false ∧
      pyStartsWith apiErrPfx msgEncodingErr = false ∧
      display_result (generate_korean_poetry "바다".data
          (.raises "ascii encode failed".data)) =
        .successPoem [msgEncodingErr] :=
  c9_encoding_message_escapes_error_routing "바다".data
    "ascii encode failed".data (Or.inl (by decide))

/-- Witness for C7: at the concrete word "바다", building the prompt twice
gives identical output and the trimmed word occurs at two disjoint
positions. -/
theorem c7_prompt_deterministic_and_word_twice_witness :
    buildPrompt "바다".data = buildPrompt "바다".data ∧
      ∃ a b c, b ≠ [] ∧
        buildPrompt "바다".data =
          a ++ pyStrip "바다".data ++ b ++ pyStrip "바다".data ++ c :=
  ⟨(c7_prompt_deterministic_and_word_twice "바다".data "바다".data).1 rfl,
   (c7_prompt_deterministic_and_word_twice "바다".data "바다".data).2⟩
